import Mathlib

/-!
A shallow embedding of the EmbedMCP protocol core (C sources under
`embed_mcp/`), covering the JSON-RPC message codec, the lifecycle state
machine, the tool registry invocation path, the resource registry lookup
path, the URI-template matcher, the file resource handler, and the
protocol dispatcher.  JSON values are modelled structurally (the JSON
tokenizer, cJSON, is an external dependency; messages are modelled at the
level of parsed cJSON trees).  Numbers are carried opaquely as integers:
the codec only copies number values, never computes with them.
-/

set_option maxRecDepth 4000

/-- Structural model of a cJSON tree.  `num` carries the numeric value
opaquely (cJSON stores doubles, but the protocol core only duplicates and
compares them). -/
inductive Json where
  | null : Json
  | bool (b : Bool) : Json
  | num (n : Int) : Json
  | str (s : String) : Json
  | arr (items : List Json) : Json
  | obj (fields : List (String × Json)) : Json

/-- ASCII lower-casing of one character, as cJSON's case-insensitive key
comparison does (`tolower` on each byte). -/
def asciiLower (c : Char) : Char :=
  if 'A' ≤ c ∧ c ≤ 'Z' then Char.ofNat (c.toNat + 32) else c

/-- Key comparison used by `cJSON_GetObjectItem` (case-insensitive). -/
def keyEq (a b : String) : Bool :=
  a.data.map asciiLower == b.data.map asciiLower

/-- Field lookup in an object's field list, first match wins. -/
def getObjField : List (String × Json) → String → Option Json
  | [], _ => none
  | (k, v) :: rest, key => if keyEq k key then some v else getObjField rest key

/-- `cJSON_GetObjectItem`: `none` on a non-object value, otherwise the
first field whose key matches case-insensitively. -/
def cJSON_GetObjectItem (j : Json) (key : String) : Option Json :=
  match j with
  | Json.obj fields => getObjField fields key
  | _ => none

/-- `cJSON_IsObject`. -/
def cJSON_IsObject (j : Json) : Bool :=
  match j with
  | Json.obj _ => true
  | _ => false

/-! ## Lifecycle state machine (`protocol_state.c`) -/

/-- `mcp_protocol_state_t`. -/
inductive McpState where
  | uninitialized | initializing | initialized | ready | error | shutdown
deriving Repr, DecidableEq

/-- `mcp_protocol_event_t`. -/
inductive McpEvent where
  | initializeRequest | initializeResponse | initializedNotification
  | request | response | notification | error | shutdown
deriving Repr, DecidableEq

/-- `is_valid_transition` in `protocol_state.c` (lines 36-66). -/
def is_valid_transition (from_ : McpState) (event : McpEvent) (to_ : McpState) : Bool :=
  match from_ with
  | .uninitialized =>
      event == .initializeRequest && to_ == .initializing
  | .initializing =>
      (event == .initializeResponse && to_ == .initialized) ||
      (event == .error && to_ == .error)
  | .initialized =>
      (event == .initializedNotification && to_ == .ready) ||
      (event == .error && to_ == .error)
  | .ready =>
      (event == .request && to_ == .ready) ||
      (event == .response && to_ == .ready) ||
      (event == .notification && to_ == .ready) ||
      (event == .error && to_ == .error) ||
      (event == .shutdown && to_ == .shutdown)
  | .error =>
      (event == .initializeRequest && to_ == .initializing) ||
      (event == .shutdown && to_ == .shutdown)
  | .shutdown => false

/-- `get_next_state` in `protocol_state.c` (lines 68-99): the candidate
next state; falls back to the current state when no transition applies. -/
def get_next_state (current : McpState) (event : McpEvent) : McpState :=
  match current with
  | .uninitialized =>
      if event == .initializeRequest then .initializing else current
  | .initializing =>
      if event == .initializeResponse then .initialized
      else if event == .error then .error
      else current
  | .initialized =>
      if event == .initializedNotification then .ready
      else if event == .error then .error
      else current
  | .ready =>
      if event == .error then .error
      else if event == .shutdown then .shutdown
      else .ready
  | .error =>
      if event == .initializeRequest then .initializing
      else if event == .shutdown then .shutdown
      else current
  | .shutdown => current

/-- The mutable part of `mcp_protocol_state_machine_t` touched by
`mcp_protocol_state_transition`; `state_entered_time` is written from the
wall clock, passed in as `now`. -/
structure McpStateMachine where
  current_state : McpState
  previous_state : McpState
  state_entered_time : Nat
  transition_count : Nat
deriving Repr, DecidableEq

/-- `mcp_protocol_state_transition` (lines 102-118): returns whether the
transition fired together with the updated machine. -/
def mcp_protocol_state_transition (m : McpStateMachine) (now : Nat) (event : McpEvent) :
    Bool × McpStateMachine :=
  let next_state := get_next_state m.current_state event
  if is_valid_transition m.current_state event next_state then
    (true, { current_state := next_state, previous_state := m.current_state,
             state_entered_time := now, transition_count := m.transition_count + 1 })
  else
    (false, m)

/-- The transition table exactly as the specification lists it (spec §4.2):
`some s'` for a listed transition, `none` for every unlisted pair. -/
def specTransitionTable (s : McpState) (e : McpEvent) : Option McpState :=
  match s, e with
  | .uninitialized, .initializeRequest => some .initializing
  | .initializing, .initializeResponse => some .initialized
  | .initializing, .error => some .error
  | .initialized, .initializedNotification => some .ready
  | .initialized, .error => some .error
  | .ready, .request => some .ready
  | .ready, .response => some .ready
  | .ready, .notification => some .ready
  | .ready, .error => some .error
  | .ready, .shutdown => some .shutdown
  | .error, .initializeRequest => some .initializing
  | .error, .shutdown => some .shutdown
  | _, _ => none

/-! ## Message codec (`message.c`) -/

/-- `mcp_message_type_t`. -/
inductive MessageType where
  | request | notification | response | error
deriving Repr, DecidableEq

/-- `mcp_message_t`: optional fields model nullable pointers.  `id`,
`params`, `result` and `error` hold arbitrary cJSON values. -/
structure McpMessage where
  type : MessageType
  jsonrpc : Option String
  id : Option Json
  method : Option String
  params : Option Json
  result : Option Json
  error : Option Json

/-- `mcp_message_validate` (`message.c` lines 213-241). -/
def mcp_message_validate (m : McpMessage) : Bool :=
  match m.jsonrpc with
  | none => false
  | some v =>
    if v ≠ "2.0" then false
    else
      match m.type with
      | .request => m.id.isSome && m.method.isSome && m.result.isNone && m.error.isNone
      | .notification => m.id.isNone && m.method.isSome && m.result.isNone && m.error.isNone
      | .response => m.id.isSome && m.method.isNone && m.result.isSome && m.error.isNone
      | .error => m.id.isSome && m.method.isNone && m.result.isNone && m.error.isSome

/-- `mcp_message_parse` (`message.c` lines 104-169), modelled on the
already-tokenized cJSON tree (the tokenizer is an external dependency):
field extraction, type classification, then validation. -/
def mcp_message_parse (j : Json) : Option McpMessage :=
  let jsonrpc := match cJSON_GetObjectItem j "jsonrpc" with
    | some (Json.str s) => some s
    | _ => none
  let id := cJSON_GetObjectItem j "id"
  let method := match cJSON_GetObjectItem j "method" with
    | some (Json.str s) => some s
    | _ => none
  let params := cJSON_GetObjectItem j "params"
  let result := cJSON_GetObjectItem j "result"
  let error := cJSON_GetObjectItem j "error"
  let type :=
    if method.isSome then (if id.isSome then MessageType.request else MessageType.notification)
    else if error.isSome then MessageType.error
    else MessageType.response
  let m : McpMessage :=
    { type := type, jsonrpc := jsonrpc, id := id, method := method,
      params := params, result := result, error := error }
  if mcp_message_validate m then some m else none

/-- An optional object field: emitted only when present (absent fields are
omitted entirely, not emitted as null). -/
def optField (key : String) (v : Option Json) : List (String × Json) :=
  match v with
  | some j => [(key, j)]
  | none => []

/-- An optional string-valued object field. -/
def optStrField (key : String) (v : Option String) : List (String × Json) :=
  match v with
  | some s => [(key, Json.str s)]
  | none => []

/-- The object built by `mcp_message_serialize` (`message.c` lines
172-210): `jsonrpc` first, then each present field in source order. -/
def mcp_message_serialize_obj (m : McpMessage) : Json :=
  Json.obj ([("jsonrpc", Json.str (m.jsonrpc.getD "2.0"))]
    ++ optField "id" m.id
    ++ optStrField "method" m.method
    ++ optField "params" m.params
    ++ optField "result" m.result
    ++ optField "error" m.error)

/-- `mcp_message_serialize`: fails (returns null) on an invalid message,
otherwise emits the object of `mcp_message_serialize_obj`. -/
def mcp_message_serialize (m : McpMessage) : Option Json :=
  if mcp_message_validate m then some (mcp_message_serialize_obj m) else none

/-! ## Requests, responses and the dispatcher (`mcp_protocol.c`, `jsonrpc.c`) -/

/-- `mcp_request_t` (without the duplicated `jsonrpc` string, which the
dispatcher never reads): nullable id, method and params. -/
structure McpRequest where
  id : Option Json
  method : Option String
  params : Option Json
  is_notification : Bool := false

/-- `mcp_message_to_request` (`message.c` lines 276-291): only request and
notification messages convert. -/
def mcp_message_to_request (m : McpMessage) : Option McpRequest :=
  if m.type == .request || m.type == .notification then
    some { id := m.id, method := m.method, params := m.params,
           is_notification := m.type == .notification }
  else none

/-- A JSON-RPC message emitted through the send callback: either a
success response built by `jsonrpc_serialize_response` (carrying a
`result` member) or an error response built by `jsonrpc_serialize_error`
(carrying an `error` member; a null id is emitted as JSON null). -/
inductive SentMessage where
  | response (id : Option Json) (result : Json)
  | errorResponse (id : Json) (code : Int) (message : String) (data : Option Json)

/-- `mcp_protocol_send_parse_error` with a null id (`mcp_protocol.c`
lines 461-463, id recovery is not attempted in `handle_message`). -/
def mcp_protocol_send_parse_error : SentMessage :=
  SentMessage.errorResponse Json.null (-32700) "Parse error" none

/-- `mcp_protocol_send_invalid_request_error` (lines 465-467). -/
def mcp_protocol_send_invalid_request_error (id : Option Json) : SentMessage :=
  SentMessage.errorResponse (id.getD Json.null) (-32600) "Invalid request" none

/-- `mcp_protocol_send_method_not_found_error` (lines 469-479): attaches
`{"method": <name>}` as error data (an empty object when the method
pointer is null). -/
def mcp_protocol_send_method_not_found_error (id : Option Json) (method : Option String) :
    SentMessage :=
  SentMessage.errorResponse (id.getD Json.null) (-32601) "Method not found"
    (some (Json.obj (optStrField "method" method)))

/-- `mcp_protocol_send_invalid_params_error` (lines 481-492): attaches
`{"details": <text>}`. -/
def mcp_protocol_send_invalid_params_error (id : Option Json) (details : String) : SentMessage :=
  SentMessage.errorResponse (id.getD Json.null) (-32602) "Invalid params"
    (some (Json.obj [("details", Json.str details)]))

/-- `mcp_protocol_send_internal_error` (lines 494-505): attaches
`{"details": <text>}`. -/
def mcp_protocol_send_internal_error (id : Option Json) (details : String) : SentMessage :=
  SentMessage.errorResponse (id.getD Json.null) (-32603) "Internal error"
    (some (Json.obj [("details", Json.str details)]))

/-- The single supported protocol version constant `MCP_PROTOCOL_VERSION`
(`message.h` line 9). -/
def MCP_PROTOCOL_VERSION : String := "2025-03-26"

/-- `mcp_protocol_version_is_supported` (`protocol_state.c` lines
431-436): null rejected, otherwise exact comparison with the constant. -/
def mcp_protocol_version_is_supported (version : Option String) : Bool :=
  match version with
  | none => false
  | some v => v == MCP_PROTOCOL_VERSION

/-- The server/client capability flags of `mcp_capabilities_t`
(server side; the client side is not consulted by the handlers here). -/
structure McpServerCapabilities where
  tools : Bool
  resources : Bool
  prompts : Bool
  logging : Bool
deriving Repr, DecidableEq

/-- `mcp_capabilities_to_json` (`protocol_state.c` lines 316-352). -/
def mcp_capabilities_to_json (c : McpServerCapabilities) : Json :=
  Json.obj (
    (if c.prompts then [("prompts", Json.obj [("listChanged", Json.bool true)])] else [])
    ++ (if c.resources then
          [("resources", Json.obj [("subscribe", Json.bool false), ("listChanged", Json.bool true)])]
        else [])
    ++ (if c.tools then [("tools", Json.obj [("listChanged", Json.bool true)])] else [])
    ++ (if c.logging then [("logging", Json.obj [])] else []))

/-- The fields of `mcp_protocol_config_t` read by the initialize
handler. -/
structure McpProtocolConfig where
  server_name : Option String
  server_version : Option String
  instructions : Option String
  capabilities : Option McpServerCapabilities

/-- `mcp_protocol_create_server_info` (`mcp_protocol.c` lines 435-450). -/
def mcp_protocol_create_server_info (config : McpProtocolConfig) : Json :=
  Json.obj (optStrField "name" config.server_name
    ++ optStrField "version" config.server_version)

/-- The success result object built by `mcp_protocol_handle_initialize`
(`mcp_protocol.c` lines 371-397): the server's own protocol version, the
server info, the configured capabilities (when present), and non-empty
instructions. -/
def initializeResult (config : McpProtocolConfig) : Json :=
  Json.obj ([("protocolVersion", Json.str MCP_PROTOCOL_VERSION)]
    ++ [("serverInfo", mcp_protocol_create_server_info config)]
    ++ (match config.capabilities with
        | some c => [("capabilities", mcp_capabilities_to_json c)]
        | none => [])
    ++ (match config.instructions with
        | some s => if s.length > 0 then [("instructions", Json.str s)] else []
        | none => []))

/-- `mcp_protocol_handle_initialize` (`mcp_protocol.c` lines 357-398):
null unless `params` is an object carrying a string `protocolVersion`;
the version value itself is never compared against the supported
constant. -/
def mcp_protocol_handle_initialize (config : McpProtocolConfig) (req : McpRequest) :
    Option Json :=
  match req.params with
  | none => none
  | some p =>
    if cJSON_IsObject p then
      match cJSON_GetObjectItem p "protocolVersion" with
      | some (Json.str _) => some (initializeResult config)
      | _ => none
    else none

/-- `mcp_protocol_handle_request` (`mcp_protocol.c` lines 243-267):
built-ins first, then the application request handler; a null handler
result becomes an internal error, a missing handler a method-not-found
error. -/
def mcp_protocol_handle_request (config : McpProtocolConfig)
    (request_handler : Option (McpRequest → Option Json)) (req : McpRequest) : SentMessage :=
  if req.method == some "initialize" then
    match mcp_protocol_handle_initialize config req with
    | some r => SentMessage.response req.id r
    | none => mcp_protocol_send_internal_error req.id "Request handler returned null"
  else if req.method == some "ping" then
    SentMessage.response req.id (Json.obj [])
  else
    match request_handler with
    | some h =>
      match h req with
      | some r => SentMessage.response req.id r
      | none => mcp_protocol_send_internal_error req.id "Request handler returned null"
    | none => mcp_protocol_send_method_not_found_error req.id req.method

/-! ## Tools (`tool_interface.c`, `tool_registry.c`) -/

/-- `MCP_TOOL_ERROR_VALIDATION` (`tool_interface.h` line 150). -/
def MCP_TOOL_ERROR_VALIDATION : String := "validation_error"

/-- `MCP_TOOL_ERROR_EXECUTION` (`tool_interface.h` line 151). -/
def MCP_TOOL_ERROR_EXECUTION : String := "execution_error"

/-- `MCP_TOOL_ERROR_NOT_FOUND` (`tool_interface.h` line 155). -/
def MCP_TOOL_ERROR_NOT_FOUND : String := "not_found_error"

/-- A single-quote character, written numerically to embed the C format
string `Expected type '%s' but got different type` verbatim. -/
def squote : String := String.mk [Char.ofNat 39]

/-- The fields of `mcp_tool_t` consulted by the invocation path.  The
executor and validator closures (C function pointers plus `user_data`)
are modelled as functions of the (nullable) argument value; a null
executor result is `none`. -/
structure McpTool where
  name : String
  title : String
  description : String
  input_schema : Option Json
  validate : Option (Option Json → Bool)
  execute : Option Json → Option Json

/-- `mcp_tool_validate_parameter_type` (`tool_interface.c` lines
446-464). -/
def mcp_tool_validate_parameter_type (value : Json) (expected_type : String) : Bool :=
  if expected_type == "string" then (match value with | Json.str _ => true | _ => false)
  else if expected_type == "number" then (match value with | Json.num _ => true | _ => false)
  else if expected_type == "boolean" then (match value with | Json.bool _ => true | _ => false)
  else if expected_type == "array" then (match value with | Json.arr _ => true | _ => false)
  else if expected_type == "object" then (match value with | Json.obj _ => true | _ => false)
  else if expected_type == "null" then (match value with | Json.null => true | _ => false)
  else false

/-- `mcp_tool_validate_parameter_against_schema` (`tool_interface.c`
lines 466-481): no schema means no validation, a null value fails, and
only the `type` facet is enforced. -/
def mcp_tool_validate_parameter_against_schema (value : Option Json) (schema : Option Json) :
    Bool :=
  match schema with
  | none => true
  | some s =>
    match value with
    | none => false
    | some v =>
      match cJSON_GetObjectItem s "type" with
      | some (Json.str t) => mcp_tool_validate_parameter_type v t
      | _ => true

/-- `mcp_tool_get_validation_error_message` (`tool_interface.c` lines
483-499). -/
def mcp_tool_get_validation_error_message (value : Option Json) (schema : Option Json) :
    String :=
  match schema with
  | none => "No schema provided"
  | some s =>
    match value with
    | none => "No value provided"
    | some v =>
      match cJSON_GetObjectItem s "type" with
      | some (Json.str t) =>
        if !(mcp_tool_validate_parameter_type v t) then
          "Expected type " ++ squote ++ t ++ squote ++ " but got different type"
        else "Validation failed"
      | _ => "Validation failed"

/-- `mcp_tool_create_error_result` (`tool_interface.c` lines 502-535):
the MCP content envelope for a failure, with a single text block
`Error (<kind>): <message>`, optional structured details, and
`isError: true`. -/
def mcp_tool_create_error_result (error_type : String) (message : String)
    (details : Option Json) : Json :=
  Json.obj ([("content", Json.arr [Json.obj
      [("type", Json.str "text"),
       ("text", Json.str ("Error (" ++ error_type ++ "): " ++ message))]])]
    ++ (match details with
        | some d => [("structuredContent", d)]
        | none => [])
    ++ [("isError", Json.bool true)])

/-- Whether the tool's validator closure is present and rejects the
arguments (`tool->validate && !tool->validate(parameters, ...)`). -/
def validatorRejects (tool : McpTool) (parameters : Option Json) : Bool :=
  match tool.validate with
  | some v => !(v parameters)
  | none => false

/-- `mcp_tool_execute` (`tool_interface.c` lines 195-222): the validator
closure runs first, the input-schema check second, then the executor; a
null executor result becomes an execution error. -/
def mcp_tool_execute (tool : McpTool) (parameters : Option Json) : Json :=
  if validatorRejects tool parameters then
    mcp_tool_create_error_result MCP_TOOL_ERROR_VALIDATION "Parameter validation failed" none
  else if tool.input_schema.isSome
      && !(mcp_tool_validate_parameter_against_schema parameters tool.input_schema) then
    mcp_tool_create_error_result MCP_TOOL_ERROR_VALIDATION
      (mcp_tool_get_validation_error_message parameters tool.input_schema) none
  else
    match tool.execute parameters with
    | none => mcp_tool_create_error_result MCP_TOOL_ERROR_EXECUTION
        "Tool execution returned null result" none
    | some r => r

/-- `mcp_tool_registry_create_tool_not_found_error` (`tool_registry.c`
lines 359-369). -/
def mcp_tool_registry_create_tool_not_found_error (tool_name : String) : Json :=
  mcp_tool_create_error_result MCP_TOOL_ERROR_NOT_FOUND "Tool not found"
    (some (Json.obj [("tool_name", Json.str tool_name)]))

/-- `mcp_tool_registry_call_tool` (`tool_registry.c` lines 248-300) on
the registry's internal entry list: lookup by exact name, then
`mcp_tool_execute` (the per-call statistics touch no observable output
and are omitted). -/
def mcp_tool_registry_call_tool (tools : List McpTool) (tool_name : String)
    (parameters : Option Json) : Json :=
  match tools.find? (fun t => t.name == tool_name) with
  | none => mcp_tool_registry_create_tool_not_found_error tool_name
  | some tool => mcp_tool_execute tool parameters

/-- `mcp_tool_to_mcp_tool_definition` (`tool_interface.c` lines
278-297). -/
def mcp_tool_to_mcp_tool_definition (tool : McpTool) : Json :=
  Json.obj ([("name", Json.str tool.name)]
    ++ (if tool.title != tool.name then [("title", Json.str tool.title)] else [])
    ++ [("description", Json.str tool.description)]
    ++ optField "inputSchema" tool.input_schema)

/-- `mcp_tool_registry_list_tools` (`tool_registry.c` lines 303-326). -/
def mcp_tool_registry_list_tools (tools : List McpTool) : Json :=
  Json.arr (tools.map mcp_tool_to_mcp_tool_definition)

/-! ## Resources (`resource_interface.c`, `resource_registry.c`,
`resource_template.c`, `file_resource_handler.c`) -/

/-- `mcp_resource_content_t`: the data bytes (as a string), the MIME type
and the binary flag. -/
structure McpResourceContent where
  data : String
  mime_type : String
  is_binary : Bool
deriving Repr, DecidableEq

/-- The type-specific payload of `mcp_resource_desc_t`.  Producer
closures (C function pointers plus `user_data`) are modelled as the
outcome they deliver; a missing closure or a failing call is `none`. -/
inductive McpResourceData where
  | text (content : String)
  | binary (data : String)
  | fn (is_binary : Bool) (producer : Option (Unit → Option String))
  | file (path : String)
  | http (url : String)

/-- The fields of `mcp_resource_desc_t` consulted by lookup and read. -/
structure McpResourceDesc where
  uri : String
  name : String
  description : Option String
  mime_type : String
  data : McpResourceData

/-- The filesystem as seen by the core: `stat` yields regularity and
size for an existing path, `read` yields the full byte content when the
file can be opened and read. -/
structure FileStat where
  is_regular : Bool
  size : Nat
deriving Repr, DecidableEq

/-- Filesystem capability record abstracting `stat`/`fopen`/`fread`. -/
structure Fs where
  stat : List Char → Option FileStat
  read : List Char → Option String

/-- `read_file_content` (`resource_interface.c` lines 83-127): open and
read the whole file; binary iff the MIME type does not start with
`text/`. -/
def read_file_content (fs : Fs) (path : String) (mime_type : String) :
    Option McpResourceContent :=
  match fs.read path.toList with
  | none => none
  | some data =>
    some { data := data, mime_type := mime_type,
           is_binary := !(mime_type.startsWith "text/") }

/-- `mcp_resource_read_content` (`resource_interface.c` lines 128-204):
per-kind read; inline text always succeeds, inline binary fails on an
empty buffer, producer closures fail when absent or unsuccessful, file
reads go through `read_file_content`, HTTP is unimplemented. -/
def mcp_resource_read_content (fs : Fs) (r : McpResourceDesc) : Option McpResourceContent :=
  match r.data with
  | McpResourceData.text c => some { data := c, mime_type := r.mime_type, is_binary := false }
  | McpResourceData.binary d =>
      if d.length == 0 then none
      else some { data := d, mime_type := r.mime_type, is_binary := true }
  | McpResourceData.fn is_bin producer =>
      match producer with
      | none => none
      | some f =>
        match f () with
        | none => none
        | some d => some { data := d, mime_type := r.mime_type, is_binary := is_bin }
  | McpResourceData.file path => read_file_content fs path r.mime_type
  | McpResourceData.http _ => none

/-- `mcp_resource_registry_find` (`resource_registry.c` lines 232-244):
exact URI equality over the entry list. -/
def mcp_resource_registry_find (resources : List McpResourceDesc) (uri : String) :
    Option McpResourceDesc :=
  resources.find? (fun r => r.uri == uri)

/-- `mcp_resource_registry_read_resource` (`resource_registry.c` lines
281-290): fails when the URI is not registered or its content read
fails. -/
def mcp_resource_registry_read_resource (fs : Fs) (resources : List McpResourceDesc)
    (uri : String) : Option McpResourceContent :=
  match mcp_resource_registry_find resources uri with
  | none => none
  | some r => mcp_resource_read_content fs r

/-- `mcp_resource_registry_list_resources` (`resource_registry.c` lines
252-278). -/
def mcp_resource_registry_list_resources (resources : List McpResourceDesc) : Json :=
  Json.arr (resources.map (fun r =>
    Json.obj ([("uri", Json.str r.uri), ("name", Json.str r.name)]
      ++ optStrField "description" r.description
      ++ [("mimeType", Json.str r.mime_type)])))

/-- The context handed to a template handler: the resolved URI and the
extracted parameters (`mcp_resource_template_context_t`). -/
structure McpTemplateContext where
  resolved_uri : String
  params : List (String × String)

/-- The fields of `mcp_resource_template_t` consulted by matching and
read; the handler closure is modelled as a function of the context. -/
structure McpResourceTemplate where
  uri_template : String
  name : String
  title : Option String
  description : Option String
  mime_type : Option String
  handler : Option (McpTemplateContext → Option McpResourceContent)

/-- Split a character list at the first occurrence of `target`:
`some (before, after)` without the occurrence itself (`strstr`/`strchr`
on a single character). -/
def splitAtChar (target : Char) : List Char → Option (List Char × List Char)
  | [] => none
  | c :: rest =>
    if c = target then some ([], rest)
    else (splitAtChar target rest).map (fun pr => (c :: pr.1, pr.2))

/-- `mcp_resource_template_parse_uri` (`resource_template.c` lines
105-176): a template without a placeholder yields zero parameters for
any URI; otherwise the single trailing placeholder is extracted, the
text before it must prefix the URI, and the rest of the URI becomes the
parameter value. -/
def mcp_resource_template_parse_uri (uri_template : String) (resolved_uri : String) :
    Option (List (String × String)) :=
  match splitAtChar '{' uri_template.toList with
  | none => some []
  | some (before, after_open) =>
    match splitAtChar '}' after_open with
    | none => none
    | some (param_name, after_close) =>
      if after_close ≠ [] then none
      else if resolved_uri.toList.take before.length ≠ before then none
      else some [(String.mk param_name, String.mk (resolved_uri.toList.drop before.length))]

/-- `mcp_resource_template_matches_uri` (`resource_template.c` lines
178-205): a URI matches iff parameter extraction succeeds. -/
def mcp_resource_template_matches_uri (uri_template : String) (uri : String) : Bool :=
  (mcp_resource_template_parse_uri uri_template uri).isSome

/-- `mcp_resource_registry_add_template` (`resource_registry.c` lines
303-331): fails on a duplicate template name, otherwise prepends the
template to the internal linked list. -/
def mcp_resource_registry_add_template (templates : List McpResourceTemplate)
    (t : McpResourceTemplate) : Option (List McpResourceTemplate) :=
  if (templates.map (fun x => x.name)).contains t.name then none
  else some (t :: templates)

/-- The internal template list produced by registering `ts` in order
(each `embed_mcp_add_resource_template` call; a rejected duplicate
leaves the registry unchanged). -/
def registerTemplates (ts : List McpResourceTemplate) : List McpResourceTemplate :=
  ts.foldl (fun acc t =>
    match mcp_resource_registry_add_template acc t with
    | some l => l
    | none => acc) []

/-- `mcp_resource_registry_find_template` (`resource_registry.c` lines
370-383): first match while walking the internal linked list. -/
def mcp_resource_registry_find_template (templates : List McpResourceTemplate)
    (uri : String) : Option McpResourceTemplate :=
  templates.find? (fun t => mcp_resource_template_matches_uri t.uri_template uri)

/-- The template lookup exactly as the specification words it (spec
§4.5): iterate in registration order, first matching template wins. -/
def specFindTemplateRegistrationOrder (registered : List McpResourceTemplate)
    (uri : String) : Option McpResourceTemplate :=
  registered.find? (fun t => mcp_resource_template_matches_uri t.uri_template uri)

/-- `mcp_resource_registry_read_template` (`resource_registry.c` lines
385-435): find the first matching template, require its handler, parse
the parameters, and run the handler on the context. -/
def mcp_resource_registry_read_template (templates : List McpResourceTemplate)
    (uri : String) : Option McpResourceContent :=
  match mcp_resource_registry_find_template templates uri with
  | none => none
  | some t =>
    match t.handler with
    | none => none
    | some h =>
      match mcp_resource_template_parse_uri t.uri_template uri with
      | none => none
      | some ps => h { resolved_uri := uri, params := ps }

/-- `mcp_resource_registry_list_templates` (`resource_registry.c` lines
337-368). -/
def mcp_resource_registry_list_templates (templates : List McpResourceTemplate) : Json :=
  Json.arr (templates.map (fun t =>
    Json.obj ([("uriTemplate", Json.str t.uri_template), ("name", Json.str t.name)]
      ++ optStrField "title" t.title
      ++ optStrField "description" t.description
      ++ optStrField "mimeType" t.mime_type)))

/-- `strstr(path, "..")`: two consecutive dots anywhere. -/
def hasDotDot : List Char → Bool
  | '.' :: '.' :: _ => true
  | _ :: rest => hasDotDot rest
  | [] => false

/-- `is_path_safe` (`file_resource_handler.c` lines 52-77): reject
absolute paths, any `..` occurrence, and a leading `.` not immediately
followed by `/`. -/
def is_path_safe (path : List Char) : Bool :=
  if path.head? = some '/' then false
  else if hasDotDot path then false
  else if path.head? = some '.' ∧ path.get? 1 ≠ some '/' then false
  else true

/-- The filesystem path derived from a resolved URI by
`mcp_file_resource_handler` (lines 90-99): strip a leading `file://`
scheme, then one leading `/`. -/
def fileHandlerPath (resolved_uri : String) : List Char :=
  let l := resolved_uri.toList
  let l1 := if l.take 7 = "file://".toList then l.drop 7 else l
  match l1 with
  | '/' :: rest => rest
  | _ => l1

/-- `strrchr(path, last dot)`: the text after the last `.` when one
exists. -/
def afterLastDot : List Char → Option (List Char)
  | [] => none
  | c :: rest =>
    match afterLastDot rest with
    | some e => some e
    | none => if c = '.' then some rest else none

/-- `get_mime_type_from_extension` (`file_resource_handler.c` lines
17-47): keyed on the text after the last dot. -/
def get_mime_type_from_extension (path : List Char) : String :=
  match afterLastDot path with
  | none => "application/octet-stream"
  | some extChars =>
    let e := String.mk extChars
    if e == "txt" then "text/plain"
    else if e == "md" then "text/markdown"
    else if e == "html" then "text/html"
    else if e == "htm" then "text/html"
    else if e == "css" then "text/css"
    else if e == "js" then "application/javascript"
    else if e == "json" then "application/json"
    else if e == "xml" then "application/xml"
    else if e == "c" then "text/x-c"
    else if e == "h" then "text/x-c"
    else if e == "cpp" then "text/x-c++"
    else if e == "cxx" then "text/x-c++"
    else if e == "cc" then "text/x-c++"
    else if e == "py" then "text/x-python"
    else if e == "rs" then "text/x-rust"
    else if e == "go" then "text/x-go"
    else if e == "java" then "text/x-java"
    else "application/octet-stream"

/-- `mcp_file_resource_handler` (`file_resource_handler.c` lines
82-175): derive the path, enforce path safety, require an existing
regular file of at most 1 MiB, read it fully, and classify text by MIME
type. -/
def mcp_file_resource_handler (fs : Fs) (resolved_uri : String) : Option McpResourceContent :=
  let p := fileHandlerPath resolved_uri
  if is_path_safe p then
    match fs.stat p with
    | none => none
    | some st =>
      if st.is_regular then
        if st.size > 1024 * 1024 then none
        else
          match fs.read p with
          | none => none
          | some data =>
            if data.length ≠ st.size then none
            else
              let mime := get_mime_type_from_extension p
              let is_text := mime.startsWith "text/" || mime == "application/json"
                || mime == "application/xml" || mime == "application/javascript"
              some { data := data, mime_type := mime, is_binary := !is_text }
      else none
  else none

/-! ## The embedding server's request handler (`embed_mcp.c`) -/

/-- The registries held by `embed_mcp_server_t` that
`protocol_request_handler` consults. -/
structure EmbedServer where
  tools : List McpTool
  resources : List McpResourceDesc
  templates : List McpResourceTemplate

/-- The `resources/read` response object built by
`protocol_request_handler` (`embed_mcp.c` lines 334-356): one content
entry with the request URI, the MIME type, and the text (binary data is
replaced by a placeholder note). -/
def resourcesReadResult (uri : String) (c : McpResourceContent) : Json :=
  Json.obj [("contents", Json.arr [Json.obj
    [("uri", Json.str uri),
     ("mimeType", Json.str c.mime_type),
     ("text", Json.str (if c.is_binary then "[Binary content not supported yet]" else c.data))]])]

/-- The `resources/read` lookup order in `protocol_request_handler`
(`embed_mcp.c` lines 312-357): the static table first, templates only
when the static read did not succeed. -/
def handleResourcesRead (fs : Fs) (server : EmbedServer) (uri : String) : Option Json :=
  match mcp_resource_registry_read_resource fs server.resources uri with
  | some c => some (resourcesReadResult uri c)
  | none =>
    match mcp_resource_registry_read_template server.templates uri with
    | some c => some (resourcesReadResult uri c)
    | none => none

/-- `protocol_request_handler` (`embed_mcp.c` lines 258-380): the five
application-level methods; anything else returns null. -/
def protocol_request_handler (fs : Fs) (server : EmbedServer) (req : McpRequest) :
    Option Json :=
  match req.method with
  | none => none
  | some m =>
    if m == "tools/list" then
      some (Json.obj [("tools", mcp_tool_registry_list_tools server.tools)])
    else if m == "tools/call" then
      match req.params with
      | none => none
      | some p =>
        match cJSON_GetObjectItem p "name" with
        | some (Json.str nm) =>
          some (mcp_tool_registry_call_tool server.tools nm (cJSON_GetObjectItem p "arguments"))
        | _ => none
    else if m == "resources/list" then
      some (Json.obj [("resources", mcp_resource_registry_list_resources server.resources)])
    else if m == "resources/read" then
      match req.params with
      | none => none
      | some p =>
        match cJSON_GetObjectItem p "uri" with
        | some (Json.str uri) => handleResourcesRead fs server uri
        | _ => none
    else if m == "resources/templates/list" then
      some (Json.obj [("resourceTemplates",
        mcp_resource_registry_list_templates server.templates)])
    else none

/-- `mcp_protocol_handle_request` as wired by `embed_mcp_create`
(`embed_mcp.c` line 543): the application handler is installed. -/
def embed_handle_request (config : McpProtocolConfig) (fs : Fs) (server : EmbedServer)
    (req : McpRequest) : SentMessage :=
  mcp_protocol_handle_request config (some (protocol_request_handler fs server)) req

/-- `jsonrpc_parse_message` (`jsonrpc.c` lines 36-53): the byte length of
the raw text (`len`, from the out-of-model tokenizer input) is checked
against the configured ceiling before message parsing. -/
def jsonrpc_parse_message (max_message_size : Nat) (len : Nat) (j : Json) :
    Option McpMessage :=
  if len > max_message_size then none else mcp_message_parse j

/-- `mcp_protocol_handle_message` (`mcp_protocol.c` lines 188-241) viewed
as the message it emits (`none` when nothing is sent): a failed parse
emits a parse error with null id; requests are dispatched; notifications
and responses emit nothing (`handle_notification` and `handle_response`
only log). -/
def mcp_protocol_handle_message (config : McpProtocolConfig)
    (request_handler : Option (McpRequest → Option Json))
    (max_message_size : Nat) (len : Nat) (j : Json) : Option SentMessage :=
  match jsonrpc_parse_message max_message_size len j with
  | none => some mcp_protocol_send_parse_error
  | some msg =>
    match msg.type with
    | .request =>
      match mcp_message_to_request msg with
      | some req => some (mcp_protocol_handle_request config request_handler req)
      | none => some (mcp_protocol_send_invalid_request_error msg.id)
    | .notification => none
    | .response => none
    | .error => none

/-! ## Failure characterisation and concrete fixtures -/

/-- The failure cases of a `tools/call` invocation enumerated by the
specification: unknown tool, validator rejection, schema rejection, or a
null executor result. -/
def ToolCallFails (tools : List McpTool) (tool_name : String) (parameters : Option Json) :
    Prop :=
  match tools.find? (fun t => t.name == tool_name) with
  | none => True
  | some tool =>
      validatorRejects tool parameters = true
      ∨ (tool.input_schema.isSome
          && !(mcp_tool_validate_parameter_against_schema parameters tool.input_schema)) = true
      ∨ tool.execute parameters = none

/-- The `tools/call` request object as sent on the wire: params carry
`name` and optionally `arguments`. -/
def toolsCallRequest (id : Json) (tool_name : String) (args : Option Json) : McpRequest :=
  { id := some id, method := some "tools/call",
    params := some (Json.obj ([("name", Json.str tool_name)] ++ optField "arguments" args)) }

/-- An empty protocol configuration fixture. -/
def cfg0 : McpProtocolConfig :=
  { server_name := none, server_version := none, instructions := none, capabilities := none }

/-- A filesystem fixture on which every operation fails. -/
def fs0 : Fs := { stat := fun _ => none, read := fun _ => none }

/-- An empty server fixture. -/
def server0 : EmbedServer := { tools := [], resources := [], templates := [] }

/-- The default protocol configuration fixture
(`mcp_protocol_config_create_default` plus default capabilities). -/
def cfgDefault : McpProtocolConfig :=
  { server_name := some "EmbedMCP", server_version := some "1.0.0", instructions := none,
    capabilities := some { tools := false, resources := false, prompts := false,
                           logging := true } }

/-- Template fixture `t1`, registered first: a placeholder-free pattern
whose handler always produces the text `one`. -/
def tmplOne : McpResourceTemplate :=
  { uri_template := "aaa", name := "t1", title := none, description := none,
    mime_type := none,
    handler := some (fun _ => some { data := "one", mime_type := "text/plain",
                                     is_binary := false }) }

/-- Template fixture `t2`, registered second: a placeholder-free pattern
whose handler always produces the text `two`. -/
def tmplTwo : McpResourceTemplate :=
  { uri_template := "bbb", name := "t2", title := none, description := none,
    mime_type := none,
    handler := some (fun _ => some { data := "two", mime_type := "text/plain",
                                     is_binary := false }) }

/-- Tool fixture for the invocation-order analysis: an object-typed input
schema together with a validator closure that rejects everything. -/
def orderTool : McpTool :=
  { name := "order", title := "order", description := "",
    input_schema := some (Json.obj [("type", Json.str "object")]),
    validate := some (fun _ => false),
    execute := fun _ => some (Json.str "ran") }

/-- A structurally invalid JSON-RPC envelope: no `method`, and both
`result` and `error` present. -/
def invalidEnvelope : Json :=
  Json.obj [("jsonrpc", Json.str "2.0"), ("id", Json.num 3),
    ("result", Json.num 1),
    ("error", Json.obj [("code", Json.num (-1)), ("message", Json.str "x")])]

/-- `initialize` params fixture carrying an unsupported
`protocolVersion` string. -/
def initParamsOld : Json :=
  Json.obj [("protocolVersion", Json.str "1999-01-01"),
    ("clientInfo", Json.obj [("name", Json.str "t"), ("version", Json.str "0")]),
    ("capabilities", Json.obj [])]

/-- An `initialize` request fixture carrying an unsupported
`protocolVersion` string. -/
def initReqOldVersion : McpRequest :=
  { id := some (Json.num 7), method := some "initialize", params := some initParamsOld }

/-- A request fixture with an unknown method. -/
def reqFrob : McpRequest :=
  { id := some (Json.num 9), method := some "frob", params := none }

/-- A well-formed request message fixture for the round-trip witness. -/
def msgW : McpMessage :=
  { type := .request, jsonrpc := some "2.0", id := some (Json.num 1),
    method := some "ping", params := none, result := none, error := none }

/-! ## Theorems -/

/-- C2: the lifecycle transition function agrees with the
specification's table on every (state, event) pair: listed transitions
fire (returning acceptance and the updated machine), and every unlisted
pair is rejected with the state left unchanged. -/
theorem c2_lifecycle_transition_matches_spec (m : McpStateMachine) (now : Nat) (e : McpEvent) :
    mcp_protocol_state_transition m now e =
      match specTransitionTable m.current_state e with
      | some s' => (true, { current_state := s', previous_state := m.current_state,
                            state_entered_time := now,
                            transition_count := m.transition_count + 1 })
      | none => (false, m) := by
  obtain ⟨c, p, t, n⟩ := m
  cases c <;> cases e <;> rfl

/-- Splitting at a character that does not occur fails. -/
theorem splitAtChar_eq_none_of_not_mem {c : Char} {l : List Char} (h : c ∉ l) :
    splitAtChar c l = none := by
  induction l with
  | nil => rfl
  | cons a rest ih =>
    rw [List.mem_cons] at h
    push_neg at h
    unfold splitAtChar
    rw [if_neg (fun hac => h.1 hac.symm), ih h.2]
    rfl

/-- C10: a registered template whose pattern contains no `{` placeholder
matches every URI: parameter extraction succeeds with zero parameters
without the URI ever being compared to the pattern text, so such a
template at the head of the template table captures every lookup. -/
theorem c10_braceless_template_matches_everything (t : McpResourceTemplate)
    (ts : List McpResourceTemplate) (uri : String)
    (h : '{' ∉ t.uri_template.toList) :
    mcp_resource_template_parse_uri t.uri_template uri = some [] ∧
    mcp_resource_template_matches_uri t.uri_template uri = true ∧
    mcp_resource_registry_find_template (t :: ts) uri = some t := by
  have hsp := splitAtChar_eq_none_of_not_mem h
  have h1 : mcp_resource_template_parse_uri t.uri_template uri = some [] := by
    unfold mcp_resource_template_parse_uri
    rw [hsp]
  have h2 : mcp_resource_template_matches_uri t.uri_template uri = true := by
    unfold mcp_resource_template_matches_uri
    rw [h1]
    rfl
  refine ⟨h1, h2, ?_⟩
  unfold mcp_resource_registry_find_template
  simp [List.find?_cons, h2]

/-- Witness for C10 at a concrete braceless template and URI. -/
theorem c10_witness :
    mcp_resource_template_parse_uri tmplOne.uri_template "file:///x" = some [] ∧
    mcp_resource_template_matches_uri tmplOne.uri_template "file:///x" = true ∧
    mcp_resource_registry_find_template [tmplOne] "file:///x" = some tmplOne :=
  c10_braceless_template_matches_everything tmplOne [] "file:///x" (by decide)

/-- C5: the file resource handler returns failure (and hence never any
content) whenever the derived path is absolute, contains `..`, starts
with `.` not followed by `/`, does not refer to a regular file, or
exceeds the 1 MiB ceiling. -/
theorem c5_file_handler_rejects_unsafe_paths (fs : Fs) (uri : String)
    (h : (fileHandlerPath uri).head? = some '/'
      ∨ hasDotDot (fileHandlerPath uri) = true
      ∨ ((fileHandlerPath uri).head? = some '.' ∧ (fileHandlerPath uri).get? 1 ≠ some '/')
      ∨ (∀ st, fs.stat (fileHandlerPath uri) = some st → st.is_regular = false)
      ∨ (∃ st, fs.stat (fileHandlerPath uri) = some st ∧ st.size > 1024 * 1024)) :
    mcp_file_resource_handler fs uri = none := by
  rcases h with h | h | h | h | h
  · have hs : is_path_safe (fileHandlerPath uri) = false := by
      unfold is_path_safe
      rw [if_pos h]
    simp [mcp_file_resource_handler, hs]
  · have hs : is_path_safe (fileHandlerPath uri) = false := by
      unfold is_path_safe
      by_cases h1 : (fileHandlerPath uri).head? = some '/'
      · rw [if_pos h1]
      · rw [if_neg h1, if_pos h]
    simp [mcp_file_resource_handler, hs]
  · have hs : is_path_safe (fileHandlerPath uri) = false := by
      unfold is_path_safe
      by_cases h1 : (fileHandlerPath uri).head? = some '/'
      · rw [if_pos h1]
      · rw [if_neg h1]
        by_cases h2 : hasDotDot (fileHandlerPath uri) = true
        · rw [if_pos h2]
        · rw [if_neg h2, if_pos h]
    simp [mcp_file_resource_handler, hs]
  · by_cases hs : is_path_safe (fileHandlerPath uri) = true
    · cases hstat : fs.stat (fileHandlerPath uri) with
      | none => simp [mcp_file_resource_handler, hs, hstat]
      | some st =>
        have hreg := h st hstat
        simp [mcp_file_resource_handler, hs, hstat, hreg]
    · simp [mcp_file_resource_handler, Bool.eq_false_iff.mpr hs]
  · obtain ⟨st, hstat, hsize⟩ := h
    by_cases hs : is_path_safe (fileHandlerPath uri) = true
    · by_cases hreg : st.is_regular = true
      · simp [mcp_file_resource_handler, hs, hstat, hreg, hsize]
      · simp [mcp_file_resource_handler, hs, hstat, Bool.eq_false_iff.mpr hreg]
    · simp [mcp_file_resource_handler, Bool.eq_false_iff.mpr hs]

/-- Witness for C5: a traversal URI whose derived path contains `..` is
rejected. -/
theorem c5_witness : mcp_file_resource_handler fs0 "file:///../secret" = none :=
  c5_file_handler_rejects_unsafe_paths fs0 "file:///../secret" (Or.inr (Or.inl (by decide)))

/-- C3: parsing the serialization of any well-formed envelope yields the
same message: same variant, same method and params, the id value
preserved verbatim, and absent optional fields still absent (the raw
byte round trip through the cJSON tokenizer is the identity on trees and
is out of model). -/
theorem c3_parse_serialize_roundtrip (m : McpMessage) (h : mcp_message_validate m = true) :
    mcp_message_parse (mcp_message_serialize_obj m) = some m := by
  obtain ⟨ty, jr, id, mth, ps, rs, er⟩ := m
  cases jr with
  | none => simp [mcp_message_validate] at h
  | some v =>
    have hv : v = "2.0" := by
      by_contra hne
      simp [mcp_message_validate, hne] at h
    subst hv
    cases ty
    case request =>
      simp only [mcp_message_validate, Bool.and_eq_true, Option.isSome_iff_exists,
        Option.isNone_iff_eq_none, ne_eq, if_neg, not_true_eq_false, reduceIte] at h
      obtain ⟨⟨⟨⟨i, hid⟩, ⟨s, hm⟩⟩, hrs⟩, her⟩ := h
      subst hid hm hrs her
      cases ps <;> rfl
    case notification =>
      simp only [mcp_message_validate, Bool.and_eq_true, Option.isSome_iff_exists,
        Option.isNone_iff_eq_none, ne_eq, if_neg, not_true_eq_false, reduceIte] at h
      obtain ⟨⟨⟨hid, ⟨s, hm⟩⟩, hrs⟩, her⟩ := h
      subst hid hm hrs her
      cases ps <;> rfl
    case response =>
      simp only [mcp_message_validate, Bool.and_eq_true, Option.isSome_iff_exists,
        Option.isNone_iff_eq_none, ne_eq, if_neg, not_true_eq_false, reduceIte] at h
      obtain ⟨⟨⟨⟨i, hid⟩, hm⟩, ⟨r, hrs⟩⟩, her⟩ := h
      subst hid hm hrs her
      cases ps <;> rfl
    case error =>
      simp only [mcp_message_validate, Bool.and_eq_true, Option.isSome_iff_exists,
        Option.isNone_iff_eq_none, ne_eq, if_neg, not_true_eq_false, reduceIte] at h
      obtain ⟨⟨⟨⟨i, hid⟩, hm⟩, hrs⟩, ⟨e, her⟩⟩ := h
      subst hid hm hrs her
      cases ps <;> rfl

/-- Witness for C3 at a concrete request envelope. -/
theorem c3_witness :
    mcp_message_validate msgW = true ∧
    mcp_message_parse (mcp_message_serialize_obj msgW) = some msgW :=
  ⟨by decide, c3_parse_serialize_roundtrip msgW (by decide)⟩

/-- Every failure envelope carries `isError: true`. -/
theorem error_result_isError (k m : String) (d : Option Json) :
    cJSON_GetObjectItem (mcp_tool_create_error_result k m d) "isError"
      = some (Json.bool true) := by
  cases d <;> rfl

/-- Every failure envelope's content is a single text block of the form
`Error (<kind>): <message>`. -/
theorem error_result_content (k m : String) (d : Option Json) :
    cJSON_GetObjectItem (mcp_tool_create_error_result k m d) "content"
      = some (Json.arr [Json.obj [("type", Json.str "text"),
          ("text", Json.str ("Error (" ++ k ++ "): " ++ m))]]) := by
  cases d <;> rfl

/-- A failing `mcp_tool_execute` run (validator rejection, schema
rejection, or null executor result) produces a failure envelope. -/
theorem execute_failure_envelope (tool : McpTool) (args : Option Json)
    (h : validatorRejects tool args = true
      ∨ (tool.input_schema.isSome
          && !(mcp_tool_validate_parameter_against_schema args tool.input_schema)) = true
      ∨ tool.execute args = none) :
    ∃ kind msg d, mcp_tool_execute tool args = mcp_tool_create_error_result kind msg d := by
  by_cases hv : validatorRejects tool args = true
  · refine ⟨MCP_TOOL_ERROR_VALIDATION, "Parameter validation failed", none, ?_⟩
    simp [mcp_tool_execute, hv]
  · have hv' : validatorRejects tool args = false := Bool.eq_false_iff.mpr hv
    by_cases hs : (tool.input_schema.isSome
        && !(mcp_tool_validate_parameter_against_schema args tool.input_schema)) = true
    · refine ⟨MCP_TOOL_ERROR_VALIDATION,
        mcp_tool_get_validation_error_message args tool.input_schema, none, ?_⟩
      simp [mcp_tool_execute, hv', hs]
    · have hx : tool.execute args = none := by
        rcases h with h | h | h
        · exact absurd h hv
        · exact absurd h hs
        · exact h
      refine ⟨MCP_TOOL_ERROR_EXECUTION, "Tool execution returned null result", none, ?_⟩
      have hs' : (tool.input_schema.isSome
          && !(mcp_tool_validate_parameter_against_schema args tool.input_schema)) = false :=
        Bool.eq_false_iff.mpr hs
      simp [mcp_tool_execute, hv', hs', hx]

/-- C1: every failing `tools/call` invocation (tool not found, schema or
validator rejection, or null executor result) makes the registry return
the MCP content envelope with `isError: true` whose first content block
is the text `Error (<kind>): <message>`, and the dispatcher sends that
envelope as a successful JSON-RPC response (a `result`, never a JSON-RPC
error response). -/
theorem c1_tool_failures_are_result_envelopes (config : McpProtocolConfig) (fs : Fs)
    (server : EmbedServer) (tool_name : String) (args : Option Json) (id : Json)
    (h : ToolCallFails server.tools tool_name args) :
    (∃ kind msg d,
      mcp_tool_registry_call_tool server.tools tool_name args
        = mcp_tool_create_error_result kind msg d
      ∧ cJSON_GetObjectItem (mcp_tool_create_error_result kind msg d) "isError"
          = some (Json.bool true)
      ∧ cJSON_GetObjectItem (mcp_tool_create_error_result kind msg d) "content"
          = some (Json.arr [Json.obj [("type", Json.str "text"),
              ("text", Json.str ("Error (" ++ kind ++ "): " ++ msg))]]))
    ∧ embed_handle_request config fs server (toolsCallRequest id tool_name args)
        = SentMessage.response (some id)
            (mcp_tool_registry_call_tool server.tools tool_name args) := by
  constructor
  · unfold mcp_tool_registry_call_tool
    cases hfind : server.tools.find? (fun t => t.name == tool_name) with
    | none =>
      refine ⟨MCP_TOOL_ERROR_NOT_FOUND, "Tool not found",
        some (Json.obj [("tool_name", Json.str tool_name)]), ?_,
        error_result_isError _ _ _, error_result_content _ _ _⟩
      rfl
    | some tool =>
      unfold ToolCallFails at h
      rw [hfind] at h
      obtain ⟨kind, msg, d, hE⟩ := execute_failure_envelope tool args h
      exact ⟨kind, msg, d, hE, error_result_isError _ _ _, error_result_content _ _ _⟩
  · cases args <;> rfl

/-- Witness for C1: calling an unregistered tool on the empty server. -/
theorem c1_witness :
    embed_handle_request cfg0 fs0 server0 (toolsCallRequest (Json.num 1) "nope" none)
      = SentMessage.response (some (Json.num 1))
          (mcp_tool_registry_call_tool server0.tools "nope" none) :=
  (c1_tool_failures_are_result_envelopes cfg0 fs0 server0 "nope" none (Json.num 1) trivial).2

/-- C8 counterexample: a tool with both an input schema and a validator,
given arguments that fail the schema check.  The invocation result is
the validator's rejection (`Parameter validation failed`), not the
schema-check rejection message — so the validator closure was invoked
first on arguments the schema rejects, contrary to the claimed
step 2 / step 3 order. -/
theorem c8_counterexample :
    mcp_tool_execute orderTool (some (Json.str "notobj"))
      = mcp_tool_create_error_result MCP_TOOL_ERROR_VALIDATION
          "Parameter validation failed" none
    ∧ mcp_tool_validate_parameter_against_schema (some (Json.str "notobj"))
        orderTool.input_schema = false
    ∧ mcp_tool_get_validation_error_message (some (Json.str "notobj"))
        orderTool.input_schema ≠ "Parameter validation failed" :=
  ⟨rfl, rfl, by decide⟩

/-- C8 amended: when both an input schema and a validator closure are
attached, the validator closure runs first; the schema check runs only
after the validator accepts, and a schema failure is then reported with
the schema validation message. -/
theorem c8_amended_validator_runs_before_schema (tool : McpTool) (args : Option Json)
    (v : Option Json → Bool) (hv : tool.validate = some v) :
    (v args = false →
      mcp_tool_execute tool args
        = mcp_tool_create_error_result MCP_TOOL_ERROR_VALIDATION
            "Parameter validation failed" none)
    ∧ (v args = true →
       mcp_tool_validate_parameter_against_schema args tool.input_schema = false →
       tool.input_schema.isSome = true →
       mcp_tool_execute tool args
         = mcp_tool_create_error_result MCP_TOOL_ERROR_VALIDATION
             (mcp_tool_get_validation_error_message args tool.input_schema) none) := by
  constructor
  · intro hr
    have hrej : validatorRejects tool args = true := by
      simp [validatorRejects, hv, hr]
    simp [mcp_tool_execute, hrej]
  · intro ha hfail hschema
    have hrej : validatorRejects tool args = false := by
      simp [validatorRejects, hv, ha]
    simp [mcp_tool_execute, hrej, hschema, hfail]

/-- Witness for C8's amended statement at the concrete order-analysis
tool. -/
theorem c8_amended_witness :
    mcp_tool_execute orderTool (some (Json.str "notobj"))
      = mcp_tool_create_error_result MCP_TOOL_ERROR_VALIDATION
          "Parameter validation failed" none :=
  (c8_amended_validator_runs_before_schema orderTool (some (Json.str "notobj"))
    (fun _ => false) rfl).1 rfl

/-- C6 counterexample: with the application request handler installed
(as `embed_mcp_create` always installs it), the unknown method `frob` is
answered with an internal error (−32603) carrying
`{"details": "Request handler returned null"}`, not with
method-not-found (−32601) carrying `{"method": "frob"}`. -/
theorem c6_counterexample :
    embed_handle_request cfg0 fs0 server0 reqFrob
      = SentMessage.errorResponse (Json.num 9) (-32603) "Internal error"
          (some (Json.obj [("details", Json.str "Request handler returned null")]))
    ∧ ((-32603 : Int) ≠ -32601) :=
  ⟨rfl, by decide⟩

/-- C6 amended: a request whose method is none of the known methods is
answered with an internal error (−32603, details
`Request handler returned null`) whenever the application request
handler is installed; the −32601 method-not-found reply carrying
`{"method": <name>}` is produced only when no request handler is set. -/
theorem c6_amended_unknown_method (config : McpProtocolConfig) (fs : Fs)
    (server : EmbedServer) (req : McpRequest) (m : String) (hm : req.method = some m)
    (h : m ∉ (["initialize", "ping", "tools/list", "tools/call", "resources/list",
               "resources/read", "resources/templates/list"] : List String)) :
    embed_handle_request config fs server req
      = mcp_protocol_send_internal_error req.id "Request handler returned null"
    ∧ mcp_protocol_handle_request config none req
      = mcp_protocol_send_method_not_found_error req.id (some m) := by
  simp only [List.mem_cons, List.not_mem_nil, or_false, not_or] at h
  obtain ⟨h1, h2, h3, h4, h5, h6, h7⟩ := h
  have e1 : ((some m : Option String) == some "initialize") = false := by
    simp [h1]
  have e2 : ((some m : Option String) == some "ping") = false := by
    simp [h2]
  constructor
  · unfold embed_handle_request mcp_protocol_handle_request protocol_request_handler
    simp [hm, e1, e2, h3, h4, h5, h6, h7]
  · unfold mcp_protocol_handle_request
    simp [hm, e1, e2]

/-- Witness for C6's amended statement at the unknown method `frob`. -/
theorem c6_amended_witness :
    embed_handle_request cfg0 fs0 server0 reqFrob
      = mcp_protocol_send_internal_error reqFrob.id "Request handler returned null" :=
  (c6_amended_unknown_method cfg0 fs0 server0 reqFrob "frob" rfl (by decide)).1

/-- C7 counterexample: an `initialize` request carrying the unsupported
`protocolVersion` string `1999-01-01` is answered with a success
response (whose `protocolVersion` is the supported constant), not with
an invalid-params (−32602) error: the handler never consults
`mcp_protocol_version_is_supported`. -/
theorem c7_counterexample :
    mcp_protocol_version_is_supported (some "1999-01-01") = false
    ∧ embed_handle_request cfgDefault fs0 server0 initReqOldVersion
        = SentMessage.response (some (Json.num 7)) (initializeResult cfgDefault)
    ∧ cJSON_GetObjectItem (initializeResult cfgDefault) "protocolVersion"
        = some (Json.str "2025-03-26") :=
  ⟨rfl, rfl, rfl⟩

/-- C7 amended: `initialize` succeeds for every params object carrying
any string `protocolVersion` (the value is never compared against the
supported constant), and the response's `protocolVersion` always equals
the supported constant `2025-03-26`; `mcp_protocol_version_is_supported`
accepts exactly the constant but is not consulted by the handler. -/
theorem c7_amended_initialize_never_checks_version (config : McpProtocolConfig)
    (rh : Option (McpRequest → Option Json)) (id : Json) (p : Json) (v : String)
    (hobj : cJSON_IsObject p = true)
    (hv : cJSON_GetObjectItem p "protocolVersion" = some (Json.str v)) :
    mcp_protocol_handle_request config rh
        { id := some id, method := some "initialize", params := some p }
      = SentMessage.response (some id) (initializeResult config)
    ∧ cJSON_GetObjectItem (initializeResult config) "protocolVersion"
        = some (Json.str MCP_PROTOCOL_VERSION)
    ∧ (mcp_protocol_version_is_supported (some v) = true ↔ v = MCP_PROTOCOL_VERSION) := by
  refine ⟨?_, rfl, ?_⟩
  · simp [mcp_protocol_handle_request, mcp_protocol_handle_initialize, hobj, hv]
  · simp [mcp_protocol_version_is_supported]

/-- Witness for C7's amended statement at the concrete unsupported
version request. -/
theorem c7_amended_witness :
    mcp_protocol_handle_request cfgDefault none
        { id := some (Json.num 7), method := some "initialize", params := some initParamsOld }
      = SentMessage.response (some (Json.num 7)) (initializeResult cfgDefault) :=
  (c7_amended_initialize_never_checks_version cfgDefault none (Json.num 7) initParamsOld
    "1999-01-01" rfl rfl).1

/-- C9 counterexample: a syntactically valid JSON object that violates
the JSON-RPC structural rules (no `method`, both `result` and `error`)
is answered with a parse error (−32700, null id), not with
invalid-request (−32600): validation failure inside `mcp_message_parse`
is indistinguishable from a tokenizer failure to the dispatcher. -/
theorem c9_counterexample :
    mcp_protocol_handle_message cfg0 none (1024 * 1024) 100 invalidEnvelope
      = some (SentMessage.errorResponse Json.null (-32700) "Parse error" none)
    ∧ ((-32700 : Int) ≠ -32600) :=
  ⟨rfl, by decide⟩

/-- C9 amended: every in-size-limit input whose parsed tree fails
message validation (the structural JSON-RPC rules) is answered with the
parse error −32700 with null id — never with −32600. -/
theorem c9_amended_structural_violations_get_parse_error (config : McpProtocolConfig)
    (rh : Option (McpRequest → Option Json)) (max_size len : Nat) (j : Json)
    (hlen : len ≤ max_size) (hparse : mcp_message_parse j = none) :
    mcp_protocol_handle_message config rh max_size len j
      = some (SentMessage.errorResponse Json.null (-32700) "Parse error" none) := by
  unfold mcp_protocol_handle_message jsonrpc_parse_message
  rw [if_neg (Nat.not_lt.mpr hlen), hparse]
  rfl

/-- Witness for C9's amended statement at the concrete invalid
envelope. -/
theorem c9_amended_witness :
    mcp_protocol_handle_message cfg0 none (1024 * 1024) 100 invalidEnvelope
      = some (SentMessage.errorResponse Json.null (-32700) "Parse error" none) :=
  c9_amended_structural_violations_get_parse_error cfg0 none (1024 * 1024) 100
    invalidEnvelope (by decide) rfl

/-- Registration builds the internal template list by prepending, so
with pairwise-distinct names the internal list is the reverse of the
registration sequence (generalised over a seed list). -/
theorem registerTemplates_go_eq_reverse (ts : List McpResourceTemplate)
    (acc : List McpResourceTemplate)
    (hnd : (ts.map (fun t => t.name)).Nodup)
    (hdisj : ∀ t ∈ ts, ¬ ((acc.map (fun x => x.name)).contains t.name = true)) :
    ts.foldl (fun acc t =>
        match mcp_resource_registry_add_template acc t with
        | some l => l
        | none => acc) acc
      = ts.reverse ++ acc := by
  induction ts generalizing acc with
  | nil => simp
  | cons hd tl ih =>
    have hhd := hdisj hd (List.mem_cons_self hd tl)
    have step : mcp_resource_registry_add_template acc hd = some (hd :: acc) := by
      unfold mcp_resource_registry_add_template
      rw [if_neg hhd]
    rw [List.foldl_cons, step]
    have hparts : (∀ x ∈ tl, ¬ x.name = hd.name) ∧ (tl.map (fun t => t.name)).Nodup := by
      simpa using hnd
    have hnd' := hparts.2
    have hdisj' : ∀ t ∈ tl, ¬ (((hd :: acc).map (fun x => x.name)).contains t.name = true) := by
      intro t ht
      simp only [List.map_cons, List.contains_cons, Bool.or_eq_true, beq_iff_eq]
      push_neg
      exact ⟨hparts.1 t ht, fun hc => hdisj t (List.mem_cons_of_mem hd ht) hc⟩
    rw [ih (hd :: acc) hnd' hdisj']
    simp

/-- With pairwise-distinct template names, the registry's internal list
is the reverse of the registration order. -/
theorem registerTemplates_eq_reverse (ts : List McpResourceTemplate)
    (hnd : (ts.map (fun t => t.name)).Nodup) :
    registerTemplates ts = ts.reverse := by
  unfold registerTemplates
  rw [registerTemplates_go_eq_reverse ts [] hnd (by simp)]
  simp

/-- C4 counterexample: two templates registered in the order `t1`, `t2`
(both placeholder-free, so both match every URI).  The registry's
template lookup returns `t2` — the most recently registered — and the
read delivers `t2`'s content, while the claimed registration-order
iteration would return `t1`. -/
theorem c4_counterexample :
    ((mcp_resource_registry_find_template (registerTemplates [tmplOne, tmplTwo]) "zzz").map
        (fun t => t.name)) = some "t2"
    ∧ ((specFindTemplateRegistrationOrder [tmplOne, tmplTwo] "zzz").map
        (fun t => t.name)) = some "t1"
    ∧ mcp_resource_registry_read_template (registerTemplates [tmplOne, tmplTwo]) "zzz"
        = some { data := "two", mime_type := "text/plain", is_binary := false }
    ∧ ("t2" : String) ≠ "t1" :=
  ⟨rfl, rfl, rfl, by decide⟩

/-- C4 amended: `resources/read` first attempts an exact static-table
match; the templates are consulted exactly when no static entry matches
the URI or the matching entry's content read fails; and the template
iteration walks the registration sequence in reverse (most recently
registered first), the first match winning. -/
theorem c4_amended_lookup_order (fs : Fs) (statics : List McpResourceDesc)
    (ts : List McpResourceTemplate) (uri : String)
    (hnd : (ts.map (fun t => t.name)).Nodup) :
    handleResourcesRead fs
        { tools := [], resources := statics, templates := registerTemplates ts } uri
      = match mcp_resource_registry_read_resource fs statics uri with
        | some c => some (resourcesReadResult uri c)
        | none => (mcp_resource_registry_read_template ts.reverse uri).map
            (resourcesReadResult uri) := by
  unfold handleResourcesRead
  rw [registerTemplates_eq_reverse ts hnd]
  cases mcp_resource_registry_read_resource fs statics uri with
  | none =>
    cases mcp_resource_registry_read_template ts.reverse uri <;> rfl
  | some c => rfl

/-- Witness for C4's amended statement at the concrete two-template
registry. -/
theorem c4_amended_witness :
    handleResourcesRead fs0
        { tools := [], resources := [], templates := registerTemplates [tmplOne, tmplTwo] }
        "zzz"
      = match mcp_resource_registry_read_resource fs0 [] "zzz" with
        | some c => some (resourcesReadResult "zzz" c)
        | none => (mcp_resource_registry_read_template
            ([tmplOne, tmplTwo] : List McpResourceTemplate).reverse "zzz").map
            (resourcesReadResult "zzz") :=
  c4_amended_lookup_order fs0 [] [tmplOne, tmplTwo] "zzz" (by decide)
